import Mathlib

/-!
Verification of the response-normalization and chart-composition pipeline of
`geoglows/streamflow.py` (the band builder, the chart entry points, the
exceedance-table builder and the csv parser of `_make_request`).

Modelling conventions, used throughout:
* machine floats are modelled as exact rationals (`ℚ`);
* pandas timestamps are modelled as naturals, `pandas.to_datetime` being an
  order-preserving injection on the valid timestamp strings of a payload;
* a missing entry (`NaN`) is `none : Option ℚ`;
* a raised Python exception is `none` / `Except.error`.

Each definition's doc comment names the source lines it embeds.
-/

namespace Geoglows

/-- Python's built-in `max` over a list of (NaN-free) floats: `none` on the
empty list, where Python raises, otherwise the greatest element. -/
def pyMax (l : List ℚ) : Option ℚ :=
  l.maximum

/-- Python 3's built-in `round` to an integer: round to nearest, halves to the
even neighbour. -/
def pyRound (q : ℚ) : ℤ :=
  if (q + 1/2 : ℚ) = ((⌊q + 1/2⌋ : ℤ) : ℚ) ∧ (⌊q + 1/2⌋ : ℤ) % 2 = 1 then
    ⌊q + 1/2⌋ - 1
  else
    ⌊q + 1/2⌋

/-- The pandas `Series.dropna()` call used on every extracted column: keep the
non-missing entries, in order. -/
def dropna (l : List (Option ℚ)) : List ℚ :=
  l.filterMap id

/-- One `go.layout.Shape(type='rect', ...)` rectangle as produced at lines
1179-1208 of `__rperiod_shapes`.  Only the fields the claims inspect are kept
(`type`, `opacity` and `line` are constants). -/
structure Shape where
  x0 : ℕ
  x1 : ℕ
  y0 : ℚ
  y1 : ℚ
  fillcolor : String
deriving DecidableEq, Repr

/-- `__rperiod_shapes(startdate, enddate, r2, r10, r20, y_max)`, lines
1177-1209: the return-period severity band builder. -/
def rperiodShapes (startdate enddate : ℕ) (r2 r10 r20 y_max : ℚ) : List Shape :=
  [⟨startdate, enddate, r2, r10, "yellow"⟩,
   ⟨startdate, enddate, r10, r20, "red"⟩,
   ⟨startdate, enddate, r20, 1.2 * y_max, "purple"⟩]

/-- The `base += '<br>Stream ID: ' + str(reach_id)` step of `__build_title`
(lines 1170-1171), guarded by Python truthiness of `reach_id` (an optional
integer here: `None` and `0` are falsy). -/
def appendStreamId (base : String) : Option ℤ → String
  | some n => if n ≠ 0 then base ++ "<br>Stream ID: " ++ toString n else base
  | none => base

/-- The `base += '<br>Upstream Drainage Area: ' + str(drain_area)` step of
`__build_title` (lines 1172-1173), guarded by Python truthiness of the
optional string `drain_area` (`None` and `''` are falsy). -/
def appendDrainArea (base : String) : Option String → String
  | some s => if s ≠ "" then base ++ "<br>Upstream Drainage Area: " ++ s else base
  | none => base

/-- `__build_title(base, reach_id, drain_area)`, lines 1169-1174. -/
def buildTitle (base : String) (reach_id : Option ℤ) (drain_area : Option String) : String :=
  appendDrainArea (appendStreamId base reach_id) drain_area

/-- The `forecast_records` table as consumed by `hydroviewer_plot`: a datetime
index and the `streamflow (m^3/s)` column. -/
structure RecordsTable where
  index : List ℕ
  streamflow : List (Option ℚ)

/-- The `forecast_stats` table as consumed by `hydroviewer_plot` and
`forecast_plot`: a datetime index and the six statistics columns, in source
column order mean, min, max, std_dev_range_lower, std_dev_range_upper,
high_res (each `(m^3/s)`). -/
structure StatsTable where
  index : List ℕ
  mean : List (Option ℚ)
  min : List (Option ℚ)
  max : List (Option ℚ)
  std_dev_range_lower : List (Option ℚ)
  std_dev_range_upper : List (Option ℚ)
  high_res : List (Option ℚ)

/-- The numeric fields of the `plot_data` dictionary built by
`hydroviewer_plot` at lines 488-505 (the x-axis date lists and the rperiod
passthrough entries are not needed by any claim and are omitted). -/
structure HydroPlotData where
  x_records : List ℕ
  recorded_flows : List ℚ
  y_max : Option ℚ
  min : List ℚ
  mean : List ℚ
  max : List ℚ
  stdlow : List ℚ
  stdup : List ℚ
  hires : List ℚ

/-- Lines 488-505 of `hydroviewer_plot`.  `y_max = max(stats['max (m^3/s)'])`
is Python `max` over the raw column; the model reads it off the non-missing
entries, i.e. assumes the `max` column carries no NaN (Python `max` over a
NaN-containing sequence has no usable meaning). -/
def hydroviewerPlotData (records : RecordsTable) (stats : StatsTable) : HydroPlotData :=
  ⟨records.index,
   dropna records.streamflow,
   pyMax (dropna stats.max),
   dropna stats.min,
   dropna stats.mean,
   dropna stats.max,
   dropna stats.std_dev_range_lower,
   dropna stats.std_dev_range_upper,
   dropna stats.high_res⟩

/-- The y-axis range `[0, 1.2 * plot_data['y_max']]` set at lines 563-566 of
`hydroviewer_plot`, as a `(lower, upper)` pair (`none` when the stats `max`
column is empty, where Python's `max` raises). -/
def hydroviewerYAxisRange (records : RecordsTable) (stats : StatsTable) : Option (ℚ × ℚ) :=
  ((hydroviewerPlotData records stats).y_max).map (fun m => (0, 1.2 * m))

/-- Every value plotted by `hydroviewer_plot`: the seven traces passed to
`go.Figure` at line 570 (recorded flows, min, std-dev bounds, max, mean,
high-resolution). -/
def hydroviewerPlottedValues (records : RecordsTable) (stats : StatsTable) : List ℚ :=
  (hydroviewerPlotData records stats).recorded_flows ++
  (hydroviewerPlotData records stats).min ++
  (hydroviewerPlotData records stats).stdlow ++
  (hydroviewerPlotData records stats).stdup ++
  (hydroviewerPlotData records stats).max ++
  (hydroviewerPlotData records stats).mean ++
  (hydroviewerPlotData records stats).hires

/-- Reference definition following the spec's words ("Y-axis range is always
[0, 1.2 × observed maximum value across all plotted series]"), for comparison
with `hydroviewerYAxisRange`. -/
def specHydroviewerYAxisRange (records : RecordsTable) (stats : StatsTable) : Option (ℚ × ℚ) :=
  (pyMax (hydroviewerPlottedValues records stats)).map (fun m => (0, 1.2 * m))

/-- The two `ValueError`s raised by the validation block at the top of every
chart entry point (e.g. `hydroviewer_plot` lines 477-480): the dataframe type
check and the outformat configuration check. -/
inductive PlotErr
  | typeErr
  | configErr
deriving DecidableEq, Repr

/-- The supported output modes `['json', 'plotly', 'plotly_html']`. -/
def validOutformats : List String :=
  ["json", "plotly", "plotly_html"]

/-- The validation block of `hydroviewer_plot`, lines 476-480, in source
order: the `isinstance(records, pd.DataFrame)` check runs first and the
outformat membership check second. -/
def hydroviewerValidate (recordsIsDataFrame : Bool) (outformat : String) : Option PlotErr :=
  if recordsIsDataFrame = false then some PlotErr.typeErr
  else if outformat ∉ validOutformats then some PlotErr.configErr
  else none

/-- `hydroviewer_plot` up to the construction of `plot_data`: the validation
block runs first and the series data is only touched on its success path. -/
def hydroviewerRun (recordsIsDataFrame : Bool) (records : RecordsTable)
    (stats : StatsTable) (outformat : String) : Except PlotErr HydroPlotData :=
  match hydroviewerValidate recordsIsDataFrame outformat with
  | some e => Except.error e
  | none => Except.ok (hydroviewerPlotData records stats)

/-- `any(i > t for i in tmp[column].to_numpy())` for one windowed ensemble
column (lines 1150, 1154, 1157). -/
def exceedsThreshold (col : List ℚ) (t : ℚ) : Bool :=
  col.any (fun v => decide (t < v))

/-- The per-column branch of `probabilities_table`, lines 1149-1158: the
(num2, num10, num20) increments contributed by one ensemble member's values in
the day's sub-window. -/
def classifyMember (rp2 rp10 rp20 : ℚ) (col : List ℚ) : ℕ × ℕ × ℕ :=
  if exceedsThreshold col rp20 then (1, 1, 1)
  else if exceedsThreshold col rp10 then (1, 1, 0)
  else if exceedsThreshold col rp2 then (1, 0, 0)
  else (0, 0, 0)

/-- The `for column in tmp` loop of `probabilities_table` for one day: the
day's (num2, num10, num20) counters, summed over the windowed columns. -/
def dayCounts (rp2 rp10 rp20 : ℚ) : List (List ℚ) → ℕ × ℕ × ℕ
  | [] => (0, 0, 0)
  | col :: rest =>
    ((classifyMember rp2 rp10 rp20 col).1 + (dayCounts rp2 rp10 rp20 rest).1,
     (classifyMember rp2 rp10 rp20 col).2.1 + (dayCounts rp2 rp10 rp20 rest).2.1,
     (classifyMember rp2 rp10 rp20 col).2.2 + (dayCounts rp2 rp10 rp20 rest).2.2)

/-- Lines 1159-1161 of `probabilities_table`: the day's three percentages
`round(num * 100 / 52)` (Python float division is exact on the reachable
values, none of which is a rounding tie). -/
def dayPercents (rp2 rp10 rp20 : ℚ) (cols : List (List ℚ)) : ℤ × ℤ × ℤ :=
  (pyRound (((dayCounts rp2 rp10 rp20 cols).1 : ℚ) * 100 / 52),
   pyRound (((dayCounts rp2 rp10 rp20 cols).2.1 : ℚ) * 100 / 52),
   pyRound (((dayCounts rp2 rp10 rp20 cols).2.2 : ℚ) * 100 / 52))

/-- `rperiods.iloc[i][0]`: the first-column value of the row at position `i`,
`none` where pandas raises.  A row is its index label together with its
column values; positional access never looks at the label. -/
def ilocFirstColumn (t : List (String × List ℚ)) (i : ℕ) : Option ℚ :=
  (t.get? i).bind (fun row => row.2.head?)

/-- Lines 1134-1136 of `probabilities_table`: the three thresholds read
positionally, `rp2 = rperiods.iloc[3][0]`, `rp10 = iloc[2][0]`,
`rp20 = iloc[1][0]`, returned here as `(rp2, rp10, rp20)`. -/
def probTableThresholds (t : List (String × List ℚ)) : Option (ℚ × ℚ × ℚ) :=
  match ilocFirstColumn t 3, ilocFirstColumn t 2, ilocFirstColumn t 1 with
  | some rp2, some rp10, some rp20 => some (rp2, rp10, rp20)
  | _, _, _ => none

/-- A parsed timestamp-indexed table: the index column and the remaining
columns row by row. -/
structure TimeSeriesTable where
  index : List ℕ
  rows : List (List ℚ)

/-- The `csv` branch of `_make_request` for the timestamp-indexed products,
lines 1230-1232: `read_csv(..., index_col='datetime')` followed by
`to_datetime` on the index.  Both steps keep the payload's row order; the
payload is the already-delimited row list. -/
def readCsvTimeIndexed (payload : List (ℕ × List ℚ)) : TimeSeriesTable :=
  ⟨payload.map Prod.fst, payload.map Prod.snd⟩

/-- The observable network effect of `_make_request`: the `requests.get`
call of line 1218. -/
inductive NetEffect
  | httpGet (url : String)
deriving DecidableEq, Repr

/-- The kind of Python object each `return_format` branch of `_make_request`
produces. -/
inductive ResponseKind
  | dataframe
  | jsonValue
  | watermlText
  | rawResponse
deriving DecidableEq, Repr

/-- `_make_request(endpoint, method, params, return_format)`, lines 1213-1240,
with its I/O trace made explicit: `requests.get(endpoint + method, ...)` runs
unconditionally at line 1218, before the `return_format` dispatch; the parsed
object is abstracted to its kind. -/
def makeRequest (endpoint method return_format : String) :
    List NetEffect × Except String ResponseKind :=
  if return_format = "csv" then
    ([NetEffect.httpGet (endpoint ++ method)], Except.ok ResponseKind.dataframe)
  else if return_format = "json" then
    ([NetEffect.httpGet (endpoint ++ method)], Except.ok ResponseKind.jsonValue)
  else if return_format = "waterml" then
    ([NetEffect.httpGet (endpoint ++ method)], Except.ok ResponseKind.watermlText)
  else if return_format = "request" then
    ([NetEffect.httpGet (endpoint ++ method)], Except.ok ResponseKind.rawResponse)
  else
    ([NetEffect.httpGet (endpoint ++ method)],
     Except.error ("Unsupported return format requested: " ++ return_format))

/-- The `return_format` values `_make_request` handles without raising. -/
def supportedReturnFormats : List String :=
  ["csv", "json", "waterml", "request"]

/-- Month lengths of the non-leap reference year (1900, the default year of a
bare `%j` parse). -/
def nonLeapMonthLengths : List ℕ :=
  [31, 28, 31, 30, 31, 30, 31, 31, 30, 31, 30, 31]

/-- Walk the month lengths: `monthDayFrom ms m d` is the (month, day) pair
that lies `d` days after the first day of month `m`. -/
def monthDayFrom : List ℕ → ℕ → ℕ → Option (ℕ × ℕ)
  | [], _, _ => none
  | len :: rest, m, d => if d < len then some (m, d + 1) else monthDayFrom rest (m + 1) (d - len)

/-- The (month, day) of the 0-based ordinal day `d` of the non-leap reference
year: `0 ↦ (1, 1)`, `364 ↦ (12, 31)`, `none` from 365 on. -/
def monthDayOfYearDay (d : ℕ) : Option (ℕ × ℕ) :=
  monthDayFrom nonLeapMonthLengths 1 d

/-- A `%j` (day-of-year) parse in the non-leap reference year followed by
`strftime('%b %d')`, rendered as a (month, day) pair.  Julian values outside
1..365 are left out of the model: 366 either wraps into the next year or is
rejected depending on the datetime backend, and larger values are rejected. -/
def strptimeJulianMonthDay (j : ℕ) : Option (ℕ × ℕ) :=
  if 1 ≤ j ∧ j ≤ 365 then monthDayOfYearDay (j - 1) else none

/-- Line 1228 of `_make_request`'s SeasonalAverage branch:
`pandas.to_datetime(tmp.index + 1, format='%j').strftime('%b %d')` applied to
one day-of-year index value `d`. -/
def seasonalIndexLabel (d : ℕ) : Option (ℕ × ℕ) :=
  strptimeJulianMonthDay (d + 1)

/-- Reference definition following the spec's words ("day-of-year integer
(1-366) ... day 1 → first calendar day"): index value `d` labelled with the
`d`-th calendar day of the non-leap reference year. -/
def specSeasonalIndexLabel (d : ℕ) : Option (ℕ × ℕ) :=
  if 1 ≤ d ∧ d ≤ 366 then monthDayOfYearDay (d - 1) else none

/-- `scipy.stats.rankdata(a, method='average')`: each entry's 1-based
ascending rank, with tied values given the mean of the rank positions they
occupy, which for an entry `x` is `(#{y | y < x} + 1 + #{y | y ≤ x}) / 2`. -/
def rankdataAvg (l : List ℚ) : List ℚ :=
  l.map (fun x =>
    (((l.countP (fun y => decide (y < x))) : ℚ) + 1 +
      ((l.countP (fun y => decide (y ≤ x))) : ℚ)) / 2)

/-- Line 1065 of `flow_duration_curve_plot`:
`hist.sort_values(by='streamflow (m^3/s)', ascending=False)[...].tolist()`. -/
def fdcSorted (hist : List ℚ) : List ℚ :=
  List.insertionSort (fun a b => a ≥ b) hist

/-- Line 1068: `ranks = len(hist) - scipy.stats.rankdata(sorted_hist,
method='average')`. -/
def fdcRanks (hist : List ℚ) : List ℚ :=
  (rankdataAvg (fdcSorted hist)).map (fun r => (hist.length : ℚ) - r)

/-- Line 1071: `prob = [(ranks[i] / (len(sorted_hist) + 1)) for i in
range(len(sorted_hist))]`. -/
def fdcProb (hist : List ℚ) : List ℚ :=
  (fdcRanks hist).map (fun r => r / ((hist.length : ℚ) + 1))

/-- The parts of a `go.Layout` the claims inspect: the y-axis range and the
`shapes` (severity band) list, which defaults to empty when the `shapes`
argument is not passed. -/
structure ChartLayout where
  yaxis_range : ℚ × ℚ
  shapes : List Shape
deriving DecidableEq, Repr

/-- Lines 1084-1095 of `flow_duration_curve_plot`: the layout is built with
`range = [0, 1.2 * y_max]` where `y_max = sorted_hist[0]`, and without a
`shapes` argument (`headI` returns 0 on the empty list, where Python would
raise). -/
def fdcLayout (hist : List ℚ) : ChartLayout :=
  ⟨(0, 1.2 * (fdcSorted hist).headI), []⟩

/- ------------------------------------------------------------------ -/
/- Helper lemmas                                                      -/
/- ------------------------------------------------------------------ -/

theorem pyMax_eq_some_iff {l : List ℚ} {m : ℚ} :
    pyMax l = some m ↔ m ∈ l ∧ ∀ x ∈ l, x ≤ m :=
  @List.maximum_eq_coe_iff ℚ _ l m

theorem exceedsThreshold_mono {col : List ℚ} {a b : ℚ} (hab : a ≤ b)
    (h : exceedsThreshold col b = true) : exceedsThreshold col a = true := by
  simp only [exceedsThreshold, List.any_eq_true, decide_eq_true_eq] at h ⊢
  obtain ⟨v, hv, hbv⟩ := h
  exact ⟨v, hv, lt_of_le_of_lt hab hbv⟩

theorem classifyMember_le (rp2 rp10 rp20 : ℚ) (col : List ℚ) :
    (classifyMember rp2 rp10 rp20 col).2.2 ≤ (classifyMember rp2 rp10 rp20 col).2.1 ∧
    (classifyMember rp2 rp10 rp20 col).2.1 ≤ (classifyMember rp2 rp10 rp20 col).1 := by
  unfold classifyMember
  split_ifs <;> simp

theorem dayCounts_monotone (rp2 rp10 rp20 : ℚ) (cols : List (List ℚ)) :
    (dayCounts rp2 rp10 rp20 cols).2.2 ≤ (dayCounts rp2 rp10 rp20 cols).2.1 ∧
    (dayCounts rp2 rp10 rp20 cols).2.1 ≤ (dayCounts rp2 rp10 rp20 cols).1 := by
  induction cols with
  | nil => simp [dayCounts]
  | cons col rest ih =>
    have hc := classifyMember_le rp2 rp10 rp20 col
    exact ⟨Nat.add_le_add hc.1 ih.1, Nat.add_le_add hc.2 ih.2⟩

theorem classifyMember_highest (rp2 rp10 rp20 : ℚ) (h210 : rp2 ≤ rp10)
    (h1020 : rp10 ≤ rp20) (col : List ℚ) :
    classifyMember rp2 rp10 rp20 col =
      ((if exceedsThreshold col rp2 then 1 else 0),
       (if exceedsThreshold col rp10 then 1 else 0),
       (if exceedsThreshold col rp20 then 1 else 0)) := by
  unfold classifyMember
  by_cases h20 : exceedsThreshold col rp20
  · have h10 := exceedsThreshold_mono h1020 h20
    have h2 := exceedsThreshold_mono (le_trans h210 h1020) h20
    simp [h20, h10, h2]
  · by_cases h10 : exceedsThreshold col rp10
    · have h2 := exceedsThreshold_mono h210 h10
      simp [h20, h10, h2]
    · by_cases h2 : exceedsThreshold col rp2 <;> simp [h20, h10, h2]

/- ------------------------------------------------------------------ -/
/- Claim theorems                                                     -/
/- ------------------------------------------------------------------ -/

/-- Claim C1: for all numeric inputs, `__rperiod_shapes` returns exactly three
severity bands, in order spanning [r2, r10), [r10, r20) and [r20, 1.2*y_max)
on the value axis, each covering the full [startdate, enddate] time range; in
particular the third band's upper bound is 1.2*y_max for every y_max, so it is
emitted unclamped even when 1.2*y_max < r20. -/
theorem rperiod_shapes_bands (s e : ℕ) (r2 r10 r20 y_max : ℚ) :
    (rperiodShapes s e r2 r10 r20 y_max).length = 3 ∧
    (rperiodShapes s e r2 r10 r20 y_max).map (fun b => (b.x0, b.x1)) =
      [(s, e), (s, e), (s, e)] ∧
    (rperiodShapes s e r2 r10 r20 y_max).map (fun b => (b.y0, b.y1)) =
      [(r2, r10), (r10, r20), (r20, 1.2 * y_max)] :=
  ⟨rfl, rfl, rfl⟩

/-- Claim C2 counterexample: a hydroviewer chart whose recorded flows reach
100 while the forecast-stats `max` column tops out at 10 gets the y-axis range
[0, 12], not [0, 120] = [0, 1.2 × the maximum across all plotted series]. -/
theorem hydroviewer_yaxis_not_all_series_cex :
    hydroviewerYAxisRange ⟨[0], [some 100]⟩
        ⟨[0], [some 1], [some 1], [some 10], [some 1], [some 1], [some 1]⟩ =
      some (0, 12) ∧
    specHydroviewerYAxisRange ⟨[0], [some 100]⟩
        ⟨[0], [some 1], [some 1], [some 10], [some 1], [some 1], [some 1]⟩ =
      some (0, 120) ∧
    (some ((0 : ℚ), (12 : ℚ)) : Option (ℚ × ℚ)) ≠ some (0, 120) := by
  refine ⟨?_, ?_, by norm_num⟩
  · have h : pyMax (dropna [some (10 : ℚ)]) = some 10 := rfl
    simp only [hydroviewerYAxisRange, hydroviewerPlotData, h, Option.map_some]
    norm_num
  · have h : pyMax (hydroviewerPlottedValues ⟨[0], [some 100]⟩
        ⟨[0], [some 1], [some 1], [some 10], [some 1], [some 1], [some 1]⟩) = some 100 := rfl
    simp only [specHydroviewerYAxisRange, h, Option.map_some]
    norm_num

/-- Claim C2 amended: the y-axis range of `hydroviewer_plot` is
[0, 1.2 × max of the stats `max` column]; it also equals [0, 1.2 × the maximum
across all plotted series] exactly when no plotted value (recorded flows,
min/max/std-dev envelope, mean, high-resolution) exceeds that column maximum. -/
theorem hydroviewer_yaxis_from_stats_max (records : RecordsTable) (stats : StatsTable)
    (m : ℚ) (hm : pyMax (dropna stats.max) = some m) :
    hydroviewerYAxisRange records stats = some (0, 1.2 * m) ∧
    ((∀ x ∈ hydroviewerPlottedValues records stats, x ≤ m) →
      specHydroviewerYAxisRange records stats = some (0, 1.2 * m)) := by
  constructor
  · simp only [hydroviewerYAxisRange, hydroviewerPlotData, hm]
    rfl
  · intro hb
    have hmem : m ∈ hydroviewerPlottedValues records stats := by
      have h0 := (pyMax_eq_some_iff.mp hm).1
      simp only [hydroviewerPlottedValues, hydroviewerPlotData, List.mem_append]
      tauto
    have hall : pyMax (hydroviewerPlottedValues records stats) = some m :=
      pyMax_eq_some_iff.mpr ⟨hmem, hb⟩
    simp only [specHydroviewerYAxisRange, hall]
    rfl

/-- Witness for the amended Claim C2 at a concrete chart where the stats `max`
column dominates every plotted series. -/
theorem hydroviewer_yaxis_from_stats_max_witness :
    hydroviewerYAxisRange ⟨[0], [some 5]⟩
        ⟨[0], [some 1], [some 1], [some 10], [some 1], [some 1], [some 1]⟩ =
      some (0, 1.2 * 10) ∧
    specHydroviewerYAxisRange ⟨[0], [some 5]⟩
        ⟨[0], [some 1], [some 1], [some 10], [some 1], [some 1], [some 1]⟩ =
      some (0, 1.2 * 10) :=
  ⟨(hydroviewer_yaxis_from_stats_max ⟨[0], [some 5]⟩
      ⟨[0], [some 1], [some 1], [some 10], [some 1], [some 1], [some 1]⟩ 10 rfl).1,
   (hydroviewer_yaxis_from_stats_max ⟨[0], [some 5]⟩
      ⟨[0], [some 1], [some 1], [some 10], [some 1], [some 1], [some 1]⟩ 10 rfl).2
     (by decide)⟩

/-- Claim C3: per day, `probabilities_table` classifies each ensemble member
by the highest threshold its flow exceeds in the day's sub-window (above the
20-year threshold increments all three tallies; only the 10-year, the 2- and
10-year tallies; only the 2-year, the 2-year tally alone; otherwise none), so
the 2-year count ≥ the 10-year count ≥ the 20-year count, and each percentage
is round(count × 100 / 52). -/
theorem probabilities_table_classification (rp2 rp10 rp20 : ℚ)
    (h210 : rp2 ≤ rp10) (h1020 : rp10 ≤ rp20) (cols : List (List ℚ)) :
    (dayCounts rp2 rp10 rp20 cols).2.2 ≤ (dayCounts rp2 rp10 rp20 cols).2.1 ∧
    (dayCounts rp2 rp10 rp20 cols).2.1 ≤ (dayCounts rp2 rp10 rp20 cols).1 ∧
    (∀ col ∈ cols, classifyMember rp2 rp10 rp20 col =
      ((if exceedsThreshold col rp2 then 1 else 0),
       (if exceedsThreshold col rp10 then 1 else 0),
       (if exceedsThreshold col rp20 then 1 else 0))) ∧
    dayPercents rp2 rp10 rp20 cols =
      (pyRound (((dayCounts rp2 rp10 rp20 cols).1 : ℚ) * 100 / 52),
       pyRound (((dayCounts rp2 rp10 rp20 cols).2.1 : ℚ) * 100 / 52),
       pyRound (((dayCounts rp2 rp10 rp20 cols).2.2 : ℚ) * 100 / 52)) :=
  ⟨(dayCounts_monotone rp2 rp10 rp20 cols).1,
   (dayCounts_monotone rp2 rp10 rp20 cols).2,
   fun col _ => classifyMember_highest rp2 rp10 rp20 h210 h1020 col,
   rfl⟩

/-- Witness for Claim C3 at thresholds 10 ≤ 20 ≤ 30 and four one-point
members exceeding, respectively, the 20-year, 10-year, 2-year and no
threshold: counts (3, 2, 1). -/
theorem probabilities_table_classification_witness :
    (dayCounts 10 20 30 [[35], [25], [15], [5]]).2.2 ≤
      (dayCounts 10 20 30 [[35], [25], [15], [5]]).2.1 ∧
    (dayCounts 10 20 30 [[35], [25], [15], [5]]).2.1 ≤
      (dayCounts 10 20 30 [[35], [25], [15], [5]]).1 ∧
    dayCounts 10 20 30 [[35], [25], [15], [5]] = (3, 2, 1) :=
  ⟨(probabilities_table_classification 10 20 30 (by norm_num) (by norm_num)
      [[35], [25], [15], [5]]).1,
   (probabilities_table_classification 10 20 30 (by norm_num) (by norm_num)
      [[35], [25], [15], [5]]).2.1,
   by decide⟩

/-- Claim C4 counterexample: called with a non-DataFrame records argument and
the invalid outformat "xml", `hydroviewer_plot` raises the dataframe-type
error, not the configuration error — the outformat check is not performed
first regardless of the tabular arguments' type. -/
theorem outformat_check_not_first_cex :
    hydroviewerRun false ⟨[], []⟩ ⟨[], [], [], [], [], [], []⟩ "xml" =
      Except.error PlotErr.typeErr ∧
    PlotErr.typeErr ≠ PlotErr.configErr :=
  ⟨rfl, by decide⟩

/-- Claim C4 amended: the outformat check runs after the dataframe-type check
but before any access to the series data: with tabular arguments of the
expected type, any outformat outside {json, plotly, plotly_html} fails with
the configuration error and the plot data is never built; with a
non-DataFrame records argument the type error is raised first instead. -/
theorem outformat_invalid_config_error (records : RecordsTable) (stats : StatsTable)
    (fmt : String) (hfmt : fmt ∉ validOutformats) :
    hydroviewerRun true records stats fmt = Except.error PlotErr.configErr ∧
    hydroviewerRun false records stats fmt = Except.error PlotErr.typeErr := by
  constructor
  · simp [hydroviewerRun, hydroviewerValidate, hfmt]
  · rfl

/-- Witness for the amended Claim C4 at the invalid outformat "xml". -/
theorem outformat_invalid_config_error_witness :
    hydroviewerRun true ⟨[], []⟩ ⟨[], [], [], [], [], [], []⟩ "xml" =
      Except.error PlotErr.configErr :=
  (outformat_invalid_config_error ⟨[], []⟩ ⟨[], [], [], [], [], [], []⟩ "xml"
    (by decide)).1

/-- Claim C5 counterexample: a timestamp-indexed payload whose rows arrive out
of order parses to a table whose index is in payload order — not strictly
increasing: the csv branch of `_make_request` never sorts the index. -/
theorem parsed_index_not_sorted_cex :
    (readCsvTimeIndexed [(2, [0]), (1, [0])]).index = [2, 1] ∧
    ¬ List.Sorted (· < ·) (readCsvTimeIndexed [(2, [0]), (1, [0])]).index :=
  ⟨rfl, by decide⟩

/-- Claim C5 amended: the parsed table's timestamp index is the payload's
timestamp column in payload row order (no sorting, no deduplication); it is
strictly increasing exactly when the payload's rows already are. -/
theorem parsed_index_preserves_order (payload : List (ℕ × List ℚ)) :
    (readCsvTimeIndexed payload).index = payload.map Prod.fst ∧
    (List.Sorted (· < ·) (readCsvTimeIndexed payload).index ↔
      List.Sorted (· < ·) (payload.map Prod.fst)) :=
  ⟨rfl, Iff.rfl⟩

/-- Claim C6 counterexample: the seasonal-average index conversion adds one
before the `%j` parse, so index value 1 is labelled Jan 02, not the first
calendar day January 01 required by the claim's mapping. -/
theorem seasonal_day_one_cex :
    seasonalIndexLabel 1 = some (1, 2) ∧ specSeasonalIndexLabel 1 = some (1, 1) ∧
    (some ((1 : ℕ), (2 : ℕ)) : Option (ℕ × ℕ)) ≠ some (1, 1) :=
  ⟨rfl, rfl, by decide⟩

/-- Claim C6 amended: the seasonal-average parser applies a 0-based
convention: index value d is labelled with calendar day d+1 of the non-leap
reference year (day 0 → Jan 01, day 1 → Jan 02, ..., day 364 → Dec 31),
consistently for every d ≤ 364; the boundary values d = 365, 366 (julian 366,
367) depend on the datetime backend and are outside the model. -/
theorem seasonal_label_zero_based (d : ℕ) :
    (d ≤ 364 → seasonalIndexLabel d = monthDayOfYearDay d) ∧
    seasonalIndexLabel 0 = some (1, 1) ∧ seasonalIndexLabel 364 = some (12, 31) := by
  refine ⟨?_, rfl, rfl⟩
  intro hd
  have h1 : 1 ≤ d + 1 := Nat.le_add_left 1 d
  have h2 : d + 1 ≤ 365 := Nat.succ_le_succ hd
  simp [seasonalIndexLabel, strptimeJulianMonthDay, h1, h2]

/-- Witness for the amended Claim C6 at index value 59 (labelled Mar 01, the
60th calendar day of a non-leap year). -/
theorem seasonal_label_zero_based_witness :
    seasonalIndexLabel 59 = monthDayOfYearDay 59 ∧ monthDayOfYearDay 59 = some (3, 1) :=
  ⟨(seasonal_label_zero_based 59).1 (by decide), by decide⟩

/-- Claim C7: `flow_duration_curve_plot` pairs the flows sorted in descending
order (a permutation of the historical series) with exceedance probabilities
rank(i)/(N+1) where N = len(hist) and rank = N minus the ascending
average-rank (ties broken by rank averaging), and its chart layout carries no
severity-band shapes. -/
theorem flow_duration_curve_spec (hist : List ℚ) :
    List.Sorted (fun a b => a ≥ b) (fdcSorted hist) ∧
    List.Perm (fdcSorted hist) hist ∧
    fdcProb hist = (rankdataAvg (fdcSorted hist)).map
      (fun r => ((hist.length : ℚ) - r) / ((hist.length : ℚ) + 1)) ∧
    (fdcLayout hist).shapes = [] := by
  refine ⟨List.sorted_insertionSort _ hist, List.perm_insertionSort _ hist, ?_, rfl⟩
  simp [fdcProb, fdcRanks, List.map_map, Function.comp]

/-- Claim C9: `probabilities_table` reads the return-period thresholds
positionally — the 20-year one from the first column of the row at position 1,
the 10-year from position 2, the 2-year from position 3 — independent of row
labels; it needs at least four rows, and a table with the same rows in a
different order yields swapped thresholds rather than an error. -/
theorem probabilities_thresholds_positional :
    (∀ (l0 l1 l2 l3 : String) (row0 : List ℚ) (v1 v2 v3 : ℚ)
        (t1 t2 t3 : List ℚ) (rest : List (String × List ℚ)),
      probTableThresholds
          ((l0, row0) :: (l1, v1 :: t1) :: (l2, v2 :: t2) :: (l3, v3 :: t3) :: rest) =
        some (v3, v2, v1)) ∧
    (∀ t : List (String × List ℚ), t.length < 4 → probTableThresholds t = none) := by
  constructor
  · intro l0 l1 l2 l3 row0 v1 v2 v3 t1 t2 t3 rest
    rfl
  · intro t ht
    match t, ht with
    | [], _ => rfl
    | [a], _ => rfl
    | [a, b], _ => rfl
    | [a, b, c], _ => rfl
    | a :: b :: c :: d :: rest, ht =>
      simp only [List.length_cons] at ht
      omega

/-- Witness for Claim C9: a descending-severity table reads back
(rp2, rp10, rp20) = (10, 30, 50); the same rows in ascending order silently
read back the swapped (50, 30, 10); a one-row table fails. -/
theorem probabilities_thresholds_positional_witness :
    probTableThresholds
        [("max", [100]), ("return_period_20", [50]),
         ("return_period_10", [30]), ("return_period_2", [10])] =
      some (10, 30, 50) ∧
    probTableThresholds
        [("max", [100]), ("return_period_2", [10]),
         ("return_period_10", [30]), ("return_period_20", [50])] =
      some (50, 30, 10) ∧
    probTableThresholds [("return_period_2", [10])] = none :=
  ⟨probabilities_thresholds_positional.1 "max" "return_period_20" "return_period_10"
      "return_period_2" [100] 50 30 10 [] [] [] [],
   probabilities_thresholds_positional.1 "max" "return_period_2" "return_period_10"
      "return_period_20" [100] 10 30 50 [] [] [] [],
   probabilities_thresholds_positional.2 [("return_period_2", [10])] (by decide)⟩

/-- Claim C8 counterexample: `_make_request` with the unrecognized format
"xml" does raise, but only after the `requests.get` network call has been
issued — the I/O trace is nonempty, contradicting "no HTTP request is issued
for an unrecognized format value". -/
theorem make_request_io_before_format_cex :
    (makeRequest "http://host/api/" "ForecastStats/" "xml").1 =
      [NetEffect.httpGet ("http://host/api/" ++ "ForecastStats/")] ∧
    (makeRequest "http://host/api/" "ForecastStats/" "xml").2 =
      Except.error ("Unsupported return format requested: " ++ "xml") ∧
    [NetEffect.httpGet ("http://host/api/" ++ "ForecastStats/")] ≠ ([] : List NetEffect) :=
  ⟨rfl, rfl, by simp⟩

/-- Claim C8 amended: a return-format outside {csv, json, waterml, request}
makes `_make_request` fail with `ValueError('Unsupported return format
requested: ...')`, but only after the HTTP request has been issued: the
dispatch happens after the unconditional `requests.get`. -/
theorem make_request_invalid_format_errors (endpoint method fmt : String)
    (h : fmt ∉ supportedReturnFormats) :
    makeRequest endpoint method fmt =
      ([NetEffect.httpGet (endpoint ++ method)],
       Except.error ("Unsupported return format requested: " ++ fmt)) := by
  simp only [supportedReturnFormats, List.mem_cons, List.not_mem_nil, or_false,
    not_or] at h
  obtain ⟨h1, h2, h3, h4⟩ := h
  simp [makeRequest, h1, h2, h3, h4]

/-- Witness for the amended Claim C8 at the unrecognized format "html". -/
theorem make_request_invalid_format_errors_witness :
    makeRequest "http://host/api/" "ForecastStats/" "html" =
      ([NetEffect.httpGet ("http://host/api/" ++ "ForecastStats/")],
       Except.error ("Unsupported return format requested: " ++ "html")) :=
  make_request_invalid_format_errors "http://host/api/" "ForecastStats/" "html"
    (by decide)

/-- Claim C10: `__build_title` treats falsy metadata as absent — reach_id = 0
and an empty drainage-area string produce the same title as omitting the
value — and non-falsy values are appended in the order base title, stream id,
drainage area. -/
theorem build_title_falsy_metadata (base : String) (n : ℤ) (s : String)
    (r : Option ℤ) (d : Option String) :
    buildTitle base (some 0) d = buildTitle base none d ∧
    buildTitle base r (some "") = buildTitle base r none ∧
    (n ≠ 0 → s ≠ "" →
      buildTitle base (some n) (some s) =
        base ++ "<br>Stream ID: " ++ toString n ++ "<br>Upstream Drainage Area: " ++ s) := by
  refine ⟨by simp [buildTitle, appendStreamId], by simp [buildTitle, appendDrainArea], ?_⟩
  intro hn hs
  simp [buildTitle, appendStreamId, appendDrainArea, hn, hs]

/-- Witness for Claim C10: reach_id 0 is dropped from the title; a non-zero
reach_id and a non-empty drainage area are appended in order. -/
theorem build_title_falsy_metadata_witness :
    buildTitle "Forecasted Streamflow" (some 0) (some "10 km^2") =
      buildTitle "Forecasted Streamflow" none (some "10 km^2") ∧
    buildTitle "Forecasted Streamflow" (some 123) (some "10 km^2") =
      "Forecasted Streamflow" ++ "<br>Stream ID: " ++ toString (123 : ℤ) ++
        "<br>Upstream Drainage Area: " ++ "10 km^2" :=
  ⟨(build_title_falsy_metadata "Forecasted Streamflow" 123 "10 km^2"
      (some 123) (some "10 km^2")).1,
   (build_title_falsy_metadata "Forecasted Streamflow" 123 "10 km^2"
      (some 123) (some "10 km^2")).2.2 (by decide) (by decide)⟩

end Geoglows
